import Mathlib

/-!
Shallow embedding of the tuya-to-mqtt bridge core (src/config.rs,
src/tuya/client.rs, src/mqtt/client.rs, src/main.rs) and proofs about it.

Rust HashMaps are modelled as association lists with a first-match lookup;
serde_json values appearing in device commands are modelled by the closed
inductive TJson (booleans, integers, strings are the only shapes the
command builder produces).
-/

namespace Bridge

/-- A JSON value as produced by build_command (src/tuya/client.rs):
booleans, integers and strings are the only shapes that arise. -/
inductive TJson : Type
  | bool (b : Bool)
  | int (n : Int)
  | str (s : String)
deriving DecidableEq, Repr

/-- First-match association-list lookup, modelling HashMap::get. -/
def alookup {α : Type} : List (String × α) → String → Option α
  | [], _ => none
  | (k2, v) :: rest, k => if k = k2 then some v else alookup rest k

/-- HashMap::insert: replace the value at the key if present, otherwise add
the key.  The new binding is placed at the head; alookup is first-match, so
lookups see the new value. -/
def insertA {α : Type} (m : List (String × α)) (k : String) (v : α) :
    List (String × α) :=
  (k, v) :: m.filter (fun p => p.1 ≠ k)

/-- serde_json::Map::insert as used by build_command: replace in place or
append, preserving the order in which distinct keys were inserted. -/
def mapInsert : List (String × TJson) → String → TJson → List (String × TJson)
  | [], k, v => [(k, v)]
  | (k2, w) :: rest, k, v =>
    if k2 = k then (k, v) :: rest else (k2, w) :: mapInsert rest k v

/-- DpType from src/config.rs: the closed variant of datapoint types. -/
inductive DpType : Type
  | Boolean : DpType
  | Integer : DpType
  | Enum (range : List String) : DpType
  | Bitmap : DpType
deriving DecidableEq, Repr

/-- DpInfo from src/config.rs: a datapoint's broker code and declared type. -/
structure DpInfo : Type where
  code : String
  dp_type : DpType
deriving DecidableEq, Repr

/-- DeviceConfig from src/config.rs, restricted to the fields the session,
router and translator consult.  dp_mapping maps dp_id to DpInfo and
reverse_mapping maps broker code to dp_id. -/
structure DeviceConfig : Type where
  topic_name : String
  dp_mapping : List (String × DpInfo)
  reverse_mapping : List (String × String)
deriving DecidableEq, Repr

/-- DpUpdate from src/tuya/mod.rs: a translated datapoint reading. -/
structure DpUpdate : Type where
  topic_name : String
  dp_code : String
  value : String
deriving DecidableEq, Repr

/-- DpCommand from src/tuya/mod.rs: the dps map sent to the device. -/
structure DpCommand : Type where
  dps : List (String × TJson)
deriving DecidableEq, Repr

/-- ha_to_tuya from src/tuya/client.rs: convert HA enum values to Tuya
device values (command direction). -/
def ha_to_tuya (dp_code value : String) : String :=
  if dp_code = "mode" then
    if value = "cool" then "cold"
    else if value = "heat" then "hot"
    else if value = "fan_only" then "wind"
    else value
  else if dp_code = "fan_speed_enum" then
    if value = "medium" then "mid"
    else value
  else value

/-- tuya_to_ha from src/tuya/client.rs: convert Tuya device values to HA
enum values (state direction). -/
def tuya_to_ha (dp_code value : String) : String :=
  if dp_code = "mode" then
    if value = "cold" then "cool"
    else if value = "hot" then "heat"
    else if value = "wind" then "fan_only"
    else value
  else if dp_code = "fan_speed_enum" then
    if value = "mid" then "medium"
    else value
  else value

/-- Value of a nonempty list of decimal digit characters; none when the list
is empty or holds a non-digit. -/
def digitsVal? (cs : List Char) : Option Nat :=
  if cs.isEmpty then none
  else cs.foldl
    (fun acc c =>
      acc.bind (fun n => if c.isDigit then some (n * 10 + (c.toNat - 48)) else none))
    (some 0)

/-- An optional leading sign followed by decimal digits, as accepted by
Rust's integer FromStr. -/
def parseSignedDigits? : List Char → Option Int
  | '+' :: rest => (digitsVal? rest).map Int.ofNat
  | '-' :: rest => (digitsVal? rest).map (fun n => -(Int.ofNat n))
  | cs => (digitsVal? cs).map Int.ofNat

/-- Rust str::parse::<i64>: signed decimal digits, rejecting values outside
the i64 range. -/
def parseI64? (s : String) : Option Int :=
  (parseSignedDigits? s.data).bind
    (fun n => if -(2 ^ 63) ≤ n ∧ n < 2 ^ 63 then some n else none)

/-- Split a character list at the first exponent marker e or E. -/
def splitOnE : List Char → List Char × Option (List Char)
  | [] => ([], none)
  | c :: rest =>
    if c = 'e' ∨ c = 'E' then ([], some rest)
    else
      let (a, b) := splitOnE rest
      (c :: a, b)

/-- Split a character list at the first occurrence of a separator,
modelling Rust str::split_once. -/
def splitOnceChars (sep : Char) : List Char → Option (List Char × List Char)
  | [] => none
  | c :: rest =>
    if c = sep then some ([], rest)
    else
      match splitOnceChars sep rest with
      | some (a, b) => some (c :: a, b)
      | none => none

/-- Unsigned decimal mantissa with optional fraction and exponent, yielding
(mantissa digits value, base-ten exponent); none when malformed.  Rust's
float grammar requires at least one digit on one side of the dot. -/
def parseDecimal? (cs : List Char) : Option (Nat × Int) := do
  let (mant, expPart) := splitOnE cs
  let (m, shift) ←
    match splitOnceChars '.' mant with
    | none => (digitsVal? mant).map (fun n => (n, (0 : Int)))
    | some (a, b) =>
      if a.isEmpty && b.isEmpty then none
      else if a.isEmpty then (digitsVal? b).map (fun n => (n, -(b.length : Int)))
      else if b.isEmpty then (digitsVal? a).map (fun n => (n, (0 : Int)))
      else
        (digitsVal? a).bind (fun na =>
          (digitsVal? b).map (fun nb =>
            (na * 10 ^ b.length + nb, -(b.length : Int))))
  let e ←
    match expPart with
    | none => some (0 : Int)
    | some ecs => parseSignedDigits? ecs
  return (m, shift + e)

def i64Max : Int := 2 ^ 63 - 1

def i64Min : Int := -(2 ^ 63)

/-- Model of the Integer fallback in build_command:
raw_value.parse::<f64>().map(|f| f as i64).  The Rust code parses the text
as an IEEE-754 double (accepting NaN and infinities) and converts with the
saturating as cast (NaN to 0, infinities and out-of-range to the i64
bounds).  This model evaluates the decimal text exactly and truncates
toward zero with the same saturation; it ignores the intermediate rounding
of the text to the nearest binary double, so near binary rounding
boundaries it can differ from the code.  No theorem below relies on this
fallback. -/
def parseF64TruncSat? (s : String) : Option Int :=
  let (neg, cs) :=
    match s.data with
    | '+' :: rest => (false, rest)
    | '-' :: rest => (true, rest)
    | cs => (false, cs)
  let lower := cs.map Char.toLower
  if lower = "inf".data ∨ lower = "infinity".data then
    some (if neg then i64Min else i64Max)
  else if lower = "nan".data then
    some 0
  else
    (parseDecimal? cs).map (fun p =>
      let mag : Nat :=
        if 0 ≤ p.2 then p.1 * 10 ^ p.2.toNat else p.1 / 10 ^ (-p.2).toNat
      let v : Int := if neg then -(Int.ofNat mag) else Int.ofNat mag
      if v < i64Min then i64Min else if i64Max < v then i64Max else v)

/-- The DpType-directed coercion in the tail of build_command
(src/tuya/client.rs).  Boolean matches the raw value against literal
true/1/on and false/0/off; Integer parses as i64 with the float fallback;
Enum sends the converted value regardless of the declared range (the
out-of-range case is only a logged warning); Bitmap always fails. -/
def coerceValue (t : DpType) (raw converted : String) : Option TJson :=
  match t with
  | .Boolean =>
    if raw = "true" ∨ raw = "1" ∨ raw = "on" then some (.bool true)
    else if raw = "false" ∨ raw = "0" ∨ raw = "off" then some (.bool false)
    else none
  | .Integer =>
    match parseI64? raw with
    | some n => some (.int n)
    | none => (parseF64TruncSat? raw).map .int
  | .Enum _ => some (.str converted)
  | .Bitmap => none

/-- build_command from src/tuya/client.rs: resolve dp_code through the
reverse mapping, fetch the DpInfo, convert the value, and either build the
compound mode/switch command or coerce by the declared DpType. -/
def build_command (config : DeviceConfig) (dp_code raw_value : String) :
    Option DpCommand :=
  match alookup config.reverse_mapping dp_code with
  | none => none
  | some dp_id =>
    match alookup config.dp_mapping dp_id with
    | none => none
    | some dp_info =>
      let converted_value := ha_to_tuya dp_code raw_value
      match
        (if dp_code = "mode" then alookup config.reverse_mapping "switch" else none)
      with
      | some switch_dp_id =>
        let dps :=
          if raw_value = "off" then
            mapInsert [] switch_dp_id (.bool false)
          else
            mapInsert (mapInsert [] switch_dp_id (.bool true)) dp_id
              (.str converted_value)
        some { dps := dps }
      | none =>
        match coerceValue dp_info.dp_type raw_value converted_value with
        | none => none
        | some value => some { dps := mapInsert [] dp_id value }

/-- One execution of the dp_rx branch of MqttClient::run
(src/mqtt/client.rs): build the cache key topic_name/dp_code, and when the
cached value differs from the new one, insert the new value into the cache
and attempt the publish; publishOk tells whether the broker accepted the
publish, and a failure is only logged (the code continues), so neither the
returned cache nor the attempt flag depends on it.  Returns the new cache
and whether a publish was attempted. -/
def processUpdate (last_values : List (String × String)) (update : DpUpdate)
    (publishOk : Bool) : List (String × String) × Bool :=
  let cache_key := update.topic_name ++ "/" ++ update.dp_code
  if alookup last_values cache_key ≠ some update.value then
    (insertA last_values cache_key update.value, true)
  else
    (last_values, false)

/-- Config::device_status_topic from src/config.rs. -/
def device_status_topic (prefx topic_name : String) : String :=
  prefx ++ "/" ++ topic_name ++ "/bridge_status"

/-- The last-will topic chosen in MqttClient::new (src/mqtt/client.rs):
the first device's status topic when exactly one device is configured,
the generic bridge topic otherwise.  Devices are given by their
topic_names. -/
def lwt_topic (prefx : String) (devices : List String) : String :=
  match devices with
  | [d] => device_status_topic prefx d
  | _ => prefx ++ "/bridge_status"

/-- The topics on which MqttClient::run publishes the retained online
marker on ConnAck (src/mqtt/client.rs): one per device, always the
per-device status topic. -/
def online_status_topics (prefx : String) (devices : List String) :
    List String :=
  devices.map (device_status_topic prefx)

/-- Rust str::strip_prefix on character lists. -/
def dropPrefixChars : List Char → List Char → Option (List Char)
  | l, [] => some l
  | [], _ :: _ => none
  | c :: l, d :: p => if c = d then dropPrefixChars l p else none

/-- Rust str::strip_prefix on strings. -/
def stripPrefixOpt (s p : String) : Option String :=
  (dropPrefixChars s.data p.data).map (fun l => ⟨l⟩)

/-- Rust str::split_once on strings. -/
def splitOnce (s : String) (sep : Char) : Option (String × String) :=
  (splitOnceChars sep s.data).map (fun p => (⟨p.1⟩, ⟨p.2⟩))

/-- parse_command_topic from src/main.rs: strip the configured topic
prefix and a following slash, split the remainder once on a slash into
topic_name and a rest that must begin with the literal command/, and
require topic_name and dp_code non-empty. -/
def parse_command_topic (topic prefx : String) : Option (String × String) := do
  let rest ← stripPrefixOpt topic prefx
  let rest ← stripPrefixOpt rest "/"
  let (topic_name, rest2) ← splitOnce rest '/'
  let dp_code ← stripPrefixOpt rest2 "command/"
  if topic_name.isEmpty || dp_code.isEmpty then none
  else some (topic_name, dp_code)

/-- The exits of TuyaClient::run_session (src/tuya/client.rs): device
construction failure, connect failure, a failed DP query (initial or from
the poll timer), a heartbeat send failure, an error on the inbound device
stream, or that stream ending.  The body is an unconditional loop, so
these early returns are the only ways run_session ends. -/
inductive SessionExit : Type
  | createFail : SessionExit
  | connectFail : SessionExit
  | initialQueryFail : SessionExit
  | heartbeatFail : SessionExit
  | pollQueryFail : SessionExit
  | deviceErr : SessionExit
  | channelClosed : SessionExit
deriving DecidableEq, Repr

/-- The Result value run_session returns for each exit: every exit path is
an Err; no path returns Ok(()). -/
def sessionResult : SessionExit → Except String Unit
  | .createFail => .error "Failed to create device"
  | .connectFail => .error "Failed to connect"
  | .initialQueryFail => .error "DP query failed"
  | .heartbeatFail => .error "Heartbeat failed"
  | .pollQueryFail => .error "DP query failed"
  | .deviceErr => .error "Device error"
  | .channelClosed => .error "Device channel closed"

/-- Whether the session had reached Active (the connect call succeeded)
before the exit. -/
def reachedActive : SessionExit → Bool
  | .createFail => false
  | .connectFail => false
  | .initialQueryFail => true
  | .heartbeatFail => true
  | .pollQueryFail => true
  | .deviceErr => true
  | .channelClosed => true

/-- One iteration of the reconnect loop in TuyaClient::run
(src/tuya/client.rs), with the backoff in seconds: on Ok the backoff is
reset to 5 and no sleep happens; on Err the loop sleeps for the current
backoff and then doubles it, capped at 60.  Returns the delay slept before
the next connection attempt (none when no sleep) and the next backoff. -/
def runStep (backoff : Nat) (result : Except String Unit) :
    Option Nat × Nat :=
  match result with
  | .ok _ => (none, 5)
  | .error _ => (some backoff, min (backoff * 2) 60)

/-- The delays slept by TuyaClient::run across a trace of session exits,
starting from a given backoff (the loop starts at 5). -/
def runDelays : Nat → List SessionExit → List Nat
  | _, [] => []
  | backoff, e :: rest =>
    match runStep backoff (sessionResult e) with
    | (some d, b2) => d :: runDelays b2 rest
    | (none, b2) => runDelays b2 rest

/-- The declared enum range of a device's datapoint, reached through the
reverse mapping; empty when the code is unmapped or the type is not Enum. -/
def declaredRange (cfg : DeviceConfig) (dp_code : String) : List String :=
  match alookup cfg.reverse_mapping dp_code with
  | none => []
  | some dp_id =>
    match alookup cfg.dp_mapping dp_id with
    | some info =>
      match info.dp_type with
      | .Enum r => r
      | _ => []
    | none => []

/-- A device in the shape produced by load_devices (src/config.rs): a
Boolean switch at dp 1 and an Enum mode at dp 3. -/
def kitchenDevice : DeviceConfig :=
  { topic_name := "kitchen"
  , dp_mapping :=
      [("1", ⟨"switch", .Boolean⟩), ("3", ⟨"mode", .Enum ["cold", "hot", "wind"]⟩)]
  , reverse_mapping := [("switch", "1"), ("mode", "3")] }

/-- A device whose mode datapoint is declared Bitmap, exercising the fact
that the compound mode path never consults the declared type. -/
def bitmapModeDevice : DeviceConfig :=
  { topic_name := "hp"
  , dp_mapping := [("1", ⟨"switch", .Boolean⟩), ("3", ⟨"mode", .Bitmap⟩)]
  , reverse_mapping := [("switch", "1"), ("mode", "3")] }

/-- A device whose declared mode range contains the bridge-side name cool,
on which the enum round trip fails. -/
def coolRangeDevice : DeviceConfig :=
  { topic_name := "hp"
  , dp_mapping := [("3", ⟨"mode", .Enum ["cold", "hot", "wind", "cool"]⟩)]
  , reverse_mapping := [("mode", "3")] }

/-- Looking a key up right after inserting it yields the inserted value. -/
theorem alookup_insertA {α : Type} (m : List (String × α)) (k : String) (v : α) :
    alookup (insertA m k v) k = some v := by
  simp [alookup, insertA]

/-- C1: the delay sequence on repeated immediate connection failures is
5, 10, 20, 40, 60, 60, as claimed; but run_session returns Err on every
one of its exit paths, so the backoff reset in the Ok arm of run is
unreachable and an Active period does not reset the delay: after a failed
connect (delay 5) and a session that reached Active and then lost its
heartbeat, the loop sleeps the carried-over 10 seconds, not the claimed
5-second base. -/
theorem c1_backoff_not_reset_after_active :
    runDelays 5 (List.replicate 6 .connectFail) = [5, 10, 20, 40, 60, 60] ∧
    runDelays 5 [.connectFail, .heartbeatFail] = [5, 10] ∧
    reachedActive .heartbeatFail = true ∧
    (∀ e : SessionExit, sessionResult e ≠ .ok ()) ∧
    runStep 10 (sessionResult .heartbeatFail) = (some 10, 20) := by
  refine ⟨by decide, by decide, rfl, ?_, rfl⟩
  intro e
  cases e <;> simp [sessionResult]

/-- C2, counterexample: a StateUpdate whose publish attempt fails
(publishOk = false) still lands in the dedup cache, because the cache is
updated before the publish; a later StateUpdate with the same key and the
same value is therefore suppressed — no publish occurs, contradicting the
claim that the retry of a failed value results in a publish. -/
theorem c2_failed_publish_not_retried_cex :
    (processUpdate [] ⟨"t", "c", "v"⟩ false).2 = true ∧
    (processUpdate (processUpdate [] ⟨"t", "c", "v"⟩ false).1
        ⟨"t", "c", "v"⟩ true).2 = false := by
  decide

/-- C2, amended: a publish failure is only logged — the cache and the
attempt flag are independent of the publish outcome — and since the cache
was updated before the attempt, a later StateUpdate with the same key and
value is always suppressed; only a different value is published again. -/
theorem c2_failed_publish_only_logged_and_not_retried
    (cache : List (String × String)) (u : DpUpdate) (ok ok2 : Bool) :
    processUpdate cache u ok = processUpdate cache u ok2 ∧
    (processUpdate (processUpdate cache u ok).1 u ok2).2 = false := by
  constructor
  · rfl
  · simp only [processUpdate]
    by_cases h : alookup cache (u.topic_name ++ "/" ++ u.dp_code) = some u.value
    · simp [h]
    · simp [h, alookup_insertA]

/-- C3, counterexample: with topic prefix P and exactly one device named
kitchen, the last-will topic is the per-device P/kitchen/bridge_status,
not the shared P/bridge_status the claim asserts; and with two devices the
last-will goes to the shared P/bridge_status while the startup online
markers go to the per-device topics, so the online marker is not published
on the topic the last-will is registered on. -/
theorem c3_availability_topic_cex :
    lwt_topic "P" ["kitchen"] = "P/kitchen/bridge_status" ∧
    lwt_topic "P" ["kitchen"] ≠ "P/bridge_status" ∧
    lwt_topic "P" ["a", "b"] = "P/bridge_status" ∧
    online_status_topics "P" ["a", "b"]
      = ["P/a/bridge_status", "P/b/bridge_status"] ∧
    lwt_topic "P" ["a", "b"] ∉ online_status_topics "P" ["a", "b"] := by
  decide

/-- C3, amended: the startup online marker is always published per device
on P/device/bridge_status; the last-will uses that same per-device topic
exactly when one device is configured, and the shared P/bridge_status
(on which no online marker is published) when the device count is not
one. -/
theorem c3_availability_topics_amended (prefx d : String) (ds : List String)
    (h : ds.length ≠ 1) :
    lwt_topic prefx [d] = device_status_topic prefx d ∧
    online_status_topics prefx [d] = [device_status_topic prefx d] ∧
    lwt_topic prefx ds = prefx ++ "/bridge_status" ∧
    online_status_topics prefx ds = ds.map (device_status_topic prefx) := by
  refine ⟨rfl, rfl, ?_, rfl⟩
  match ds, h with
  | [], _ => rfl
  | [x], h => exact absurd rfl h
  | x :: y :: t, _ => rfl

/-- C3, amended claim witness at prefix P, single device kitchen and
device pair a, b. -/
theorem c3_availability_topics_amended_witness :
    lwt_topic "P" ["kitchen"] = device_status_topic "P" "kitchen" ∧
    online_status_topics "P" ["kitchen"] = [device_status_topic "P" "kitchen"] ∧
    lwt_topic "P" ["a", "b"] = "P" ++ "/bridge_status" ∧
    online_status_topics "P" ["a", "b"]
      = ["a", "b"].map (device_status_topic "P") :=
  c3_availability_topics_amended "P" "kitchen" ["a", "b"] (by decide)

/-- C4: command-topic parsing accepts P/kitchen/command/mode as
(kitchen, mode) and rejects a state topic, a foreign prefix, an empty
dp_code and an empty topic_name. -/
theorem c4_parse_command_topic_examples :
    parse_command_topic "P/kitchen/command/mode" "P" = some ("kitchen", "mode") ∧
    parse_command_topic "P/kitchen/state/mode" "P" = none ∧
    parse_command_topic "Other/kitchen/command/mode" "P" = none ∧
    parse_command_topic "P/kitchen/command/" "P" = none ∧
    parse_command_topic "P//command/mode" "P" = none := by
  decide

/-- C5: on a device mapping mode and switch (to distinct dp ids, with the
mode id present in the dp table, as load_devices guarantees), the mode
command is compound: payload off yields only switch false, and any other
payload yields switch true together with the enum-converted mode value —
in particular heat yields switch true and mode hot. -/
theorem c5_compound_mode_command (cfg : DeviceConfig) (m s : String)
    (info : DpInfo) (v : String)
    (hm : alookup cfg.reverse_mapping "mode" = some m)
    (hs : alookup cfg.reverse_mapping "switch" = some s)
    (hi : alookup cfg.dp_mapping m = some info)
    (hms : m ≠ s) :
    build_command cfg "mode" "off" = some ⟨[(s, .bool false)]⟩ ∧
    (v ≠ "off" →
      build_command cfg "mode" v
        = some ⟨[(s, .bool true), (m, .str (ha_to_tuya "mode" v))]⟩) ∧
    build_command cfg "mode" "heat"
      = some ⟨[(s, .bool true), (m, .str "hot")]⟩ := by
  have hgen : ∀ w : String, w ≠ "off" →
      build_command cfg "mode" w
        = some ⟨[(s, .bool true), (m, .str (ha_to_tuya "mode" w))]⟩ := by
    intro w hw
    simp [build_command, hm, hi, hs, hw, mapInsert, hms.symm]
  refine ⟨?_, hgen v, ?_⟩
  · simp [build_command, hm, hi, hs, mapInsert]
  · have h3 := hgen "heat" (by decide)
    rw [show ha_to_tuya "mode" "heat" = "hot" from by decide] at h3
    exact h3

/-- C5 witness on the concrete kitchenDevice with switch at dp 1 and mode
at dp 3. -/
theorem c5_compound_mode_command_witness :
    build_command kitchenDevice "mode" "off"
      = some ⟨[("1", .bool false)]⟩ ∧
    build_command kitchenDevice "mode" "heat"
      = some ⟨[("1", .bool true), ("3", .str "hot")]⟩ :=
  ⟨(c5_compound_mode_command kitchenDevice "3" "1"
      ⟨"mode", .Enum ["cold", "hot", "wind"]⟩ "heat"
      (by decide) (by decide) (by decide) (by decide)).1,
   (c5_compound_mode_command kitchenDevice "3" "1"
      ⟨"mode", .Enum ["cold", "hot", "wind"]⟩ "heat"
      (by decide) (by decide) (by decide) (by decide)).2.2⟩

/-- C6: starting from a cache whose entry for the key differs from v1, the
first of two consecutive StateUpdates for the same key publishes, the
second publishes exactly when v2 differs from v1 (by exact string
equality), and the cached value afterwards is v2. -/
theorem c6_consecutive_updates_dedup (cache : List (String × String))
    (t c v1 v2 : String) (ok1 ok2 : Bool)
    (h : alookup cache (t ++ "/" ++ c) ≠ some v1) :
    (processUpdate cache ⟨t, c, v1⟩ ok1).2 = true ∧
    (processUpdate (processUpdate cache ⟨t, c, v1⟩ ok1).1
        ⟨t, c, v2⟩ ok2).2 = !(v1 == v2) ∧
    alookup (processUpdate (processUpdate cache ⟨t, c, v1⟩ ok1).1
        ⟨t, c, v2⟩ ok2).1 (t ++ "/" ++ c) = some v2 := by
  by_cases hv : v1 = v2
  · subst hv
    simp [processUpdate, h, alookup_insertA]
  · refine ⟨by simp [processUpdate, h], ?_, ?_⟩ <;>
      simp [processUpdate, h, alookup_insertA, hv, Ne.symm hv]

/-- C6 witness: fresh cache, key kitchen/mode, values cool then heat. -/
theorem c6_consecutive_updates_dedup_witness :
    (processUpdate [] ⟨"kitchen", "mode", "cool"⟩ true).2 = true ∧
    (processUpdate (processUpdate [] ⟨"kitchen", "mode", "cool"⟩ true).1
        ⟨"kitchen", "mode", "heat"⟩ true).2 = !("cool" == "heat") ∧
    alookup (processUpdate (processUpdate [] ⟨"kitchen", "mode", "cool"⟩ true).1
        ⟨"kitchen", "mode", "heat"⟩ true).1
      ("kitchen" ++ "/" ++ "mode") = some "heat" :=
  c6_consecutive_updates_dedup [] "kitchen" "mode" "cool" "heat" true true
    (by decide)

/-- C7, counterexample: a device may declare the bridge-side name cool in
its mode enum range (the config loader accepts any strings), and on that
in-range value the round trip fails: cool is unchanged by the
device-to-bridge table and then sent to cold by the bridge-to-device
table. -/
theorem c7_enum_roundtrip_cex :
    "cool" ∈ declaredRange coolRangeDevice "mode" ∧
    ha_to_tuya "mode" (tuya_to_ha "mode" "cool") = "cold" ∧
    ("cold" : String) ≠ "cool" := by
  decide

/-- C7, amended: the round trip bridge-of-device translation is the
identity on every value except the bridge-side enum names themselves
(cool, heat, fan_only for mode; medium for fan_speed_enum) — so it holds
over any declared range avoiding those four names — and for every dp_code
other than mode and fan_speed_enum both directions are the identity on
every value. -/
theorem c7_enum_roundtrip_amended (dpc v : String)
    (hmode : dpc = "mode" → v ≠ "cool" ∧ v ≠ "heat" ∧ v ≠ "fan_only")
    (hfan : dpc = "fan_speed_enum" → v ≠ "medium") :
    ha_to_tuya dpc (tuya_to_ha dpc v) = v ∧
    (dpc ≠ "mode" → dpc ≠ "fan_speed_enum" →
      tuya_to_ha dpc v = v ∧ ha_to_tuya dpc v = v) := by
  constructor
  · by_cases hm : dpc = "mode"
    · subst hm
      obtain ⟨h1, h2, h3⟩ := hmode rfl
      by_cases h4 : v = "cold"
      · subst h4; decide
      · by_cases h5 : v = "hot"
        · subst h5; decide
        · by_cases h6 : v = "wind"
          · subst h6; decide
          · have ht : tuya_to_ha "mode" v = v := by
              simp [tuya_to_ha, h4, h5, h6]
            rw [ht]
            simp [ha_to_tuya, h1, h2, h3]
    · by_cases hf : dpc = "fan_speed_enum"
      · subst hf
        have h4 := hfan rfl
        by_cases h5 : v = "mid"
        · subst h5; decide
        · have ht : tuya_to_ha "fan_speed_enum" v = v := by
            simp [tuya_to_ha, h5]
          rw [ht]
          simp [ha_to_tuya, h4]
      · simp [tuya_to_ha, ha_to_tuya, hm, hf]
  · intro hm hf
    simp [tuya_to_ha, ha_to_tuya, hm, hf]

/-- C7 amended claim witness at the device-native values cold and mid and
an unmapped code. -/
theorem c7_enum_roundtrip_amended_witness :
    (ha_to_tuya "mode" (tuya_to_ha "mode" "cold") = "cold" ∧
      ("mode" ≠ "mode" → "mode" ≠ "fan_speed_enum" →
        tuya_to_ha "mode" "cold" = "cold" ∧ ha_to_tuya "mode" "cold" = "cold")) ∧
    (ha_to_tuya "fan_speed_enum" (tuya_to_ha "fan_speed_enum" "mid") = "mid") ∧
    (tuya_to_ha "target_temp" "21" = "21" ∧ ha_to_tuya "target_temp" "21" = "21") :=
  ⟨c7_enum_roundtrip_amended "mode" "cold" (by decide) (by decide),
   (c7_enum_roundtrip_amended "fan_speed_enum" "mid" (by decide) (by decide)).1,
   (c7_enum_roundtrip_amended "target_temp" "21" (by decide) (by decide)).2
     (by decide) (by decide)⟩

/-- C9: on a device mapping both mode and switch (with the mode dp id
present in the dp table, as load_devices guarantees), build_command on
dp_code mode returns Some for every payload and every declared DpType of
the mode datapoint: the compound path returns before the type-directed
coercion, so Boolean and Integer parse failures, the Bitmap
always-fails rule and the enum range check are all bypassed. -/
theorem c9_compound_mode_bypasses_dp_type (cfg : DeviceConfig) (m s : String)
    (info : DpInfo) (v : String)
    (hm : alookup cfg.reverse_mapping "mode" = some m)
    (hs : alookup cfg.reverse_mapping "switch" = some s)
    (hi : alookup cfg.dp_mapping m = some info) :
    (build_command cfg "mode" v).isSome = true := by
  by_cases hv : v = "off" <;> simp [build_command, hm, hi, hs, hv]

/-- C9 witness: a Bitmap-typed mode datapoint and a payload that is not a
boolean, integer or declared enum value still yields a command. -/
theorem c9_compound_mode_bypasses_dp_type_witness :
    (build_command bitmapModeDevice "mode" "definitely not a mode").isSome
      = true :=
  c9_compound_mode_bypasses_dp_type bitmapModeDevice "3" "1"
    ⟨"mode", .Bitmap⟩ "definitely not a mode"
    (by decide) (by decide) (by decide)

/-- C10: the dedup cache key concatenates topic_name, a slash and dp_code,
and the encoding is not injective: the distinct pairs (a, b/c) and
(a/b, c) share the key a/b/c, so an update for the second pair is
suppressed by the cached value of the first. -/
theorem c10_cache_key_collision :
    ("a" ++ "/" ++ "b/c" : String) = "a/b" ++ "/" ++ "c" ∧
    (("a", "b/c") : String × String) ≠ ("a/b", "c") ∧
    (processUpdate [] ⟨"a", "b/c", "x"⟩ true).2 = true ∧
    (processUpdate (processUpdate [] ⟨"a", "b/c", "x"⟩ true).1
        ⟨"a/b", "c", "x"⟩ true).2 = false := by
  decide

end Bridge
